import Mathlib

/-!
# Verification of the gows reconnecting websocket client

Shallow embedding of the gows library (package `gows`): the retry/backoff
computation (`configuration.go`), the dial/retry loop and supervisor
(`connection.go`, current revision), the pausable send queue (`queue.go`),
the sender loop (`sender.go`), and the public `Websocket` surface
(`websocket.go`, current revision).

Durations (`time.Duration`) are modelled as rational numbers of
nanoseconds; Go's `int64(...)` conversion of a non-negative float is
truncation toward zero, modelled by `int64Trunc`.  Concurrent channel
operations are modelled at their linearization points: a blocked sender on
a channel is recorded in a pending list, and one iteration of a `select`
loop is one step of an explicit transition function.
-/

namespace GoWs

/-- Outbound messages are opaque byte strings; bytes are modelled as naturals. -/
abbrev Msg := List Nat

/-! ## Configuration (configuration.go) -/

/-- The retry-relevant fields of the `Configuration` struct
(configuration.go:14-30).  `ConnectionRetries` is a Go `int`; the duration
fields are nanosecond counts; the URL/query/logger/TLS fields play no role
in the claims and are omitted. -/
structure Configuration where
  ConnectionRetries : Int
  ConnectionRetryFactor : ℚ
  ConnectionRetryTimeoutMin : ℚ
  ConnectionRetryTimeoutMax : ℚ
  ConnectionRetryRandomize : Bool
  RetryInitialConnection : Bool

/-- Go's `int64(x)` conversion of a (finite) float value: truncation toward
zero. -/
def int64Trunc (x : ℚ) : Int :=
  if 0 ≤ x then ⌊x⌋ else -⌊-x⌋

/-- `getRetryDuration` (configuration.go:33-43): the backoff delay for a
zero-based `attempt`.  `rand` stands for the value drawn from
`rand.Float64()` (a value in `[0,1)`); it is consulted only when
`ConnectionRetryRandomize` is set, in which case `random = rand + 1`. -/
def Configuration.getRetryDuration (c : Configuration) (rand : ℚ) (attempt : Nat) : Int :=
  let random : ℚ := if c.ConnectionRetryRandomize then rand + 1 else 1
  int64Trunc (min (random * c.ConnectionRetryTimeoutMin * c.ConnectionRetryFactor ^ attempt)
    c.ConnectionRetryTimeoutMax)

/-- The delay formula exactly as the specification states it:
`min(r * minDelay * factor^attempt, maxDelay)`. -/
def claimDelay (minDelay maxDelay factor r : ℚ) (attempt : Nat) : ℚ :=
  min (r * minDelay * factor ^ attempt) maxDelay

/-- The configuration of the spec's backoff scenario: `minDelay = 100ms`,
`maxDelay = 500ms`, `factor = 2`, jitter disabled (durations in
nanoseconds). -/
def c2Scenario : Configuration :=
  { ConnectionRetries := 0
    ConnectionRetryFactor := 2
    ConnectionRetryTimeoutMin := 100000000
    ConnectionRetryTimeoutMax := 500000000
    ConnectionRetryRandomize := false
    RetryInitialConnection := true }

lemma int64Trunc_intCast (z : ℤ) : int64Trunc (z : ℚ) = z := by
  unfold int64Trunc
  by_cases h : (0 : ℚ) ≤ (z : ℚ)
  · simp [h]
  · rw [if_neg h, ← Int.cast_neg, Int.floor_intCast, neg_neg]

lemma int64Trunc_le {x b : ℚ} (hx : x ≤ b) (hb : 0 ≤ b) : (int64Trunc x : ℚ) ≤ b := by
  unfold int64Trunc
  by_cases h : 0 ≤ x
  · rw [if_pos h]
    exact le_trans (Int.floor_le x) hx
  · rw [if_neg h]
    push_cast
    have h1 : (0 : ℚ) ≤ -x := by linarith [not_le.mp h]
    have h2 : (0 : ℤ) ≤ ⌊-x⌋ := Int.floor_nonneg.mpr h1
    have h3 : (0 : ℚ) ≤ (⌊-x⌋ : ℚ) := by exact_mod_cast h2
    linarith

/-- C2: for every attempt `n`, the computed retry delay is (the int64
nanosecond truncation of) `min(r * minDelay * factor^n, maxDelay)` with
`r = 1` when jitter is disabled and `r = rand + 1 ∈ [1,2)` when enabled;
the delay never exceeds `maxDelay` (when `maxDelay` is non-negative, as a
duration is); and in the scenario `minDelay=100ms, maxDelay=500ms,
factor=2, jitter=false` the delays for attempts 0..3 are 100ms, 200ms,
400ms and 500ms (capped). -/
theorem getRetryDuration_matches_claim_formula :
    (∀ (c : Configuration) (rand : ℚ) (n : Nat),
      c.getRetryDuration rand n =
        int64Trunc (claimDelay c.ConnectionRetryTimeoutMin c.ConnectionRetryTimeoutMax
          c.ConnectionRetryFactor (if c.ConnectionRetryRandomize then rand + 1 else 1) n)) ∧
    (∀ (c : Configuration) (rand : ℚ) (n : Nat),
      0 ≤ c.ConnectionRetryTimeoutMax →
      (c.getRetryDuration rand n : ℚ) ≤ c.ConnectionRetryTimeoutMax) ∧
    (∀ rand : ℚ,
      c2Scenario.getRetryDuration rand 0 = 100000000 ∧
      c2Scenario.getRetryDuration rand 1 = 200000000 ∧
      c2Scenario.getRetryDuration rand 2 = 400000000 ∧
      c2Scenario.getRetryDuration rand 3 = 500000000) := by
  refine ⟨fun c rand n => rfl, fun c rand n hM => ?_, fun rand => ?_⟩
  · exact int64Trunc_le (min_le_right _ _) hM
  · refine ⟨?_, ?_, ?_, ?_⟩
    · have e : c2Scenario.getRetryDuration rand 0 = int64Trunc ((100000000 : ℤ) : ℚ) := by
        unfold Configuration.getRetryDuration c2Scenario
        norm_num
      rw [e, int64Trunc_intCast]
    · have e : c2Scenario.getRetryDuration rand 1 = int64Trunc ((200000000 : ℤ) : ℚ) := by
        unfold Configuration.getRetryDuration c2Scenario
        norm_num
      rw [e, int64Trunc_intCast]
    · have e : c2Scenario.getRetryDuration rand 2 = int64Trunc ((400000000 : ℤ) : ℚ) := by
        unfold Configuration.getRetryDuration c2Scenario
        norm_num
      rw [e, int64Trunc_intCast]
    · have e : c2Scenario.getRetryDuration rand 3 = int64Trunc ((500000000 : ℤ) : ℚ) := by
        unfold Configuration.getRetryDuration c2Scenario
        norm_num
      rw [e, int64Trunc_intCast]

/-- Witness for C2: the bound conjunct applied at the scenario
configuration, attempt 3. -/
theorem getRetryDuration_matches_claim_formula_witness :
    ((c2Scenario.getRetryDuration 0 3 : ℚ) ≤ c2Scenario.ConnectionRetryTimeoutMax) :=
  getRetryDuration_matches_claim_formula.2.1 c2Scenario 0 3 (by norm_num [c2Scenario])

/-! ## Dialing and the connection supervisor (connection.go, current revision) -/

/-- Outcome of one run of the `connect` dial loop under a fuel bound.
`next` is the index of the next unconsumed dial in the dial oracle;
`attempts` is the number of dials performed by this call. -/
inductive ConnectOutcome where
  | success (next : Nat) (attempts : Nat)
  | failure (next : Nat) (attempts : Nat)
  | spin
deriving Repr, DecidableEq

/-- The `connect` dial loop (connection.go `connect`, current revision
lines 11-48): dial; on success return the connection; otherwise keep
trying while `retries && (ConnectionRetries == 0 || attempt <
ConnectionRetries-1)`, sleeping `getRetryDuration attempt` between
attempts (the sleep does not affect the result and is not modelled).
`dial k` is the outcome of the k-th dial issued by the process, so that
successive `connect` calls of the supervisor consume one shared oracle;
`attempt` is the loop's local zero-based counter.  `fuel` bounds the
number of iterations; `.spin` means the loop was still running when the
fuel ran out.  The `getDialer` URL-parse error path (which returns before
any dial) is not modelled: the claims presuppose a well-formed URL. -/
def connect (c : Configuration) (dial : Nat → Bool) (retries : Bool) :
    Nat → Nat → Nat → ConnectOutcome
  | _, _, 0 => .spin
  | k, attempt, fuel + 1 =>
    if dial k then .success (k + 1) (attempt + 1)
    else
      if retries ∧ (c.ConnectionRetries = 0 ∨ (attempt : Int) < c.ConnectionRetries - 1) then
        connect c dial retries (k + 1) (attempt + 1) fuel
      else .failure (k + 1) (attempt + 1)

/-- Outcome of the `reviver` goroutine.  `dials` is the total number of
dials consumed.  `.panicNil` marks the nil-pointer dereference that
occurs when `setConnection` is handed the nil connection produced by an
exhausted redial (`connection.SetCloseHandler` on a nil `*websocket.Conn`). -/
inductive ReviverOutcome where
  | initialError (dials : Nat)
  | connected (dials : Nat)
  | panicNil (dials : Nat)
  | spin
deriving Repr, DecidableEq

/-- The drop-handling loop of `reviver` (connection.go, current revision
lines 65-88), processing `drops` successive drop notifications: each drop
clears the connection and redials with `connect(true)`, discarding the
error, then calls `setConnection` on the result.  With no drops pending
the goroutine sits in its select with the connection established. -/
def reviverLoop (c : Configuration) (dial : Nat → Bool) (fuel : Nat) :
    Nat → Nat → ReviverOutcome
  | 0, k => .connected k
  | drops + 1, k =>
    match connect c dial true k 0 fuel with
    | .spin => .spin
    | .failure k2 _ => .panicNil k2
    | .success k2 _ => reviverLoop c dial fuel drops k2

/-- The `reviver` goroutine (connection.go, current revision lines 51-89):
an initial `connect(RetryInitialConnection)`; on failure the error is
pushed to the caller and the goroutine exits; on success `setConnection`
runs and the loop handles `drops` drop notifications. -/
def reviver (c : Configuration) (dial : Nat → Bool) (drops fuel : Nat) : ReviverOutcome :=
  match connect c dial c.RetryInitialConnection 0 0 fuel with
  | .spin => .spin
  | .failure _ n => .initialError n
  | .success k _ => reviverLoop c dial fuel drops k

lemma connect_succ (c : Configuration) (dial : Nat → Bool) (retries : Bool)
    (k attempt fuel : Nat) :
    connect c dial retries k attempt (fuel + 1) =
      if dial k then ConnectOutcome.success (k + 1) (attempt + 1)
      else
        if retries ∧ (c.ConnectionRetries = 0 ∨ (attempt : Int) < c.ConnectionRetries - 1) then
          connect c dial retries (k + 1) (attempt + 1) fuel
        else ConnectOutcome.failure (k + 1) (attempt + 1) := rfl

lemma connect_allFail_bounded (c : Configuration) (N : Nat) (hc : c.ConnectionRetries = (N : Int)) :
    ∀ (fuel a k : Nat), a < N → N ≤ a + fuel →
      connect c (fun _ => false) true k a fuel = .failure (k + (N - a)) N := by
  intro fuel
  induction fuel with
  | zero => intro a k ha hfuel; omega
  | succ fuel ih =>
    intro a k ha hfuel
    rw [connect_succ, if_neg (by simp)]
    by_cases hlast : a + 1 = N
    · rw [if_neg ?hneg]
      case hneg =>
        intro h
        rcases h.2 with h0 | hlt
        · rw [hc] at h0; omega
        · rw [hc] at hlt; omega
      have h1 : N - a = 1 := by omega
      rw [h1, hlast]
    · rw [if_pos ⟨rfl, Or.inr (by rw [hc]; omega)⟩]
      have h2 := ih (a + 1) (k + 1) (by omega) (by omega)
      rw [h2]
      congr 1
      omega

lemma connect_unbounded_spin (c : Configuration) (hc : c.ConnectionRetries = 0) :
    ∀ (fuel k a : Nat), connect c (fun _ => false) true k a fuel = .spin := by
  intro fuel
  induction fuel with
  | zero => intro k a; rfl
  | succ fuel ih =>
    intro k a
    rw [connect_succ, if_neg (by simp), if_pos ⟨rfl, Or.inl hc⟩]
    exact ih (k + 1) (a + 1)

/-- C3: with the initial-connection retry policy enabled, a maximum of
`N > 0` attempts and a dialer that always fails, `connect` performs
exactly `N` dials and returns the last dial error, and the whole
`reviver` consumes exactly those `N` dials and exits (no further
attempts for the initial connection); with the maximum configured as 0
the dial loop never returns, for any amount of fuel. -/
theorem connect_initial_retry_cap :
    (∀ (c : Configuration) (N fuel drops : Nat),
      c.ConnectionRetries = (N : Int) → c.RetryInitialConnection = true →
      0 < N → N ≤ fuel →
      connect c (fun _ => false) true 0 0 fuel = .failure N N ∧
      reviver c (fun _ => false) drops fuel = .initialError N) ∧
    (∀ (c : Configuration) (fuel k a : Nat), c.ConnectionRetries = 0 →
      connect c (fun _ => false) true k a fuel = .spin) := by
  constructor
  · intro c N fuel drops hc hinit hN hfuel
    have h1 : connect c (fun _ => false) true 0 0 fuel = .failure N N := by
      have := connect_allFail_bounded c N hc fuel 0 0 hN (by omega)
      simpa using this
    refine ⟨h1, ?_⟩
    unfold reviver
    rw [hinit, h1]
  · intro c fuel k a hc
    exact connect_unbounded_spin c hc fuel k a

/-- A configuration capped at 3 initial attempts, with the
initial-connection retry policy enabled. -/
def retries3Config : Configuration :=
  { ConnectionRetries := 3
    ConnectionRetryFactor := 2
    ConnectionRetryTimeoutMin := 100000000
    ConnectionRetryTimeoutMax := 500000000
    ConnectionRetryRandomize := false
    RetryInitialConnection := true }

/-- Witness for C3: a configuration with 3 retries and an always-failing
dialer makes exactly 3 attempts, and with retries 0 the loop spins. -/
theorem connect_initial_retry_cap_witness :
    (connect retries3Config (fun _ => false) true 0 0 5 = .failure 3 3 ∧
      reviver retries3Config (fun _ => false) 2 5 = .initialError 3) ∧
    connect c2Scenario (fun _ => false) true 0 0 7 = .spin :=
  ⟨connect_initial_retry_cap.1 retries3Config 3 5 2 rfl rfl (by decide) (by decide),
    connect_initial_retry_cap.2 c2Scenario 7 0 0 rfl⟩

/-- C8: with the initial-connection retry policy disabled, `connect`
performs exactly one dial and returns its failure immediately, whatever
the configuration; and the `reviver` goroutine then exits after that
single dial, so no background retry is ever started for a connection
that never succeeded once. -/
theorem connect_no_initial_retry_single_attempt :
    (∀ (c : Configuration) (dial : Nat → Bool) (k a fuel : Nat),
      dial k = false → 1 ≤ fuel →
      connect c dial false k a fuel = .failure (k + 1) (a + 1)) ∧
    (∀ (c : Configuration) (dial : Nat → Bool) (drops fuel : Nat),
      c.RetryInitialConnection = false → dial 0 = false → 1 ≤ fuel →
      reviver c dial drops fuel = .initialError 1) := by
  have hone : ∀ (c : Configuration) (dial : Nat → Bool) (k a fuel : Nat),
      dial k = false → 1 ≤ fuel →
      connect c dial false k a fuel = .failure (k + 1) (a + 1) := by
    intro c dial k a fuel hdial hfuel
    obtain ⟨f, rfl⟩ : ∃ f, fuel = f + 1 := ⟨fuel - 1, by omega⟩
    rw [connect_succ, if_neg (by simp [hdial]), if_neg (fun h => by simp at h)]
  refine ⟨hone, ?_⟩
  intro c dial drops fuel hinit hdial hfuel
  unfold reviver
  rw [hinit, hone c dial 0 0 fuel hdial hfuel]

/-- Witness for C8: a single failed dial with the policy disabled is
surfaced at once and the reviver stops after one dial. -/
theorem connect_no_initial_retry_single_attempt_witness :
    connect c2Scenario (fun _ => false) false 0 0 4 = .failure 1 1 ∧
    reviver { c2Scenario with RetryInitialConnection := false } (fun _ => false) 3 4 =
      .initialError 1 :=
  ⟨connect_no_initial_retry_single_attempt.1 c2Scenario (fun _ => false) 0 0 4 rfl (by decide),
    connect_no_initial_retry_single_attempt.2 _ (fun _ => false) 3 4 rfl rfl (by decide)⟩

/-- A configuration whose retry cap is 1, as in the failing input for the
drop-redial claim. -/
def capOneConfig : Configuration :=
  { ConnectionRetries := 1
    ConnectionRetryFactor := 2
    ConnectionRetryTimeoutMin := 100000000
    ConnectionRetryTimeoutMax := 500000000
    ConnectionRetryRandomize := false
    RetryInitialConnection := true }

/-- A dialer that succeeds on the first dial (the initial connection),
fails on the second (the first redial after the drop), and would succeed
ever after. -/
def dropThenFailOnceDial : Nat → Bool := fun k => k != 1

/-- C1 (code bug): after an established connection drops, the redial is
NOT uncapped: `reviver` re-enters `connect(true)`, which still honors
`ConnectionRetries`.  With the cap set to 1 and a dialer that fails just
once after the drop, the redial gives up after one attempt, the error is
discarded, and `setConnection` is invoked with a nil connection — a nil
pointer dereference — instead of the client returning to the Connected
state as the claim requires. -/
theorem reviver_drop_redial_capped_panics :
    reviver capOneConfig dropThenFailOnceDial 1 10 = .panicNil 2 ∧
    (∀ n, ReviverOutcome.panicNil 2 ≠ .connected n) := by
  exact ⟨by decide, fun n h => by cases h⟩

/-! ## The pausable send queue (queue.go) and the sender loop (sender.go)

The `queue` of queue.go has no internal buffer: every `push`/`unPop`
spawns a `handleInput` goroutine that blocks on `secondaryInChannel` /
`primaryInChannel` until the `run` loop consumes it.  The model records
those blocked senders in two pending lists (`primary`, `secondary`),
oldest first, and the `run`/`writeOutput` loop as one `deliver` step:

* `run` (queue.go:57-105) consumes a pending primary sender in
  preference to a secondary one: the outer select only has the primary
  input as an IO case, and only its `default` branch (taken when no
  primary sender is pending) also listens on the secondary input.
* `writeOutput` (queue.go:140-174) refuses to emit while a pause is
  pending and retries the same entry after the resume, and emits nothing
  after `shutdown`; so a `deliver` step is a no-op when `paused` or
  `stopped` is set.
* `handleInput` (queue.go:123-137) discards the entry when the queue has
  been shut down; so `push`/`unPop` are no-ops when `stopped` is set.
* `pause`/`resume`/`shutdown` (queue.go:47-54, 118-120) set and clear
  the corresponding mode of the loop.

Each operation is modelled at its linearization point; `delivered`
records the messages emitted on `outputChannel`, in order. -/

/-- The observable state of a `queue` (queue.go:4-15) together with the
mode of its `run` loop and the history of delivered messages. -/
structure QueueState where
  primary : List Msg
  secondary : List Msg
  paused : Bool
  stopped : Bool
  delivered : List Msg
deriving Repr, DecidableEq

/-- The state set up by `newQueue` (queue.go:18-29): no pending senders,
not paused, not stopped, nothing delivered. -/
def newQueue : QueueState :=
  { primary := [], secondary := [], paused := false, stopped := false, delivered := [] }

/-- The operations of the queue: the four producer-side calls
(`push`, `unPop`, `pause`, `resume`, `shutdown`, queue.go:37-54 and
118-120) plus one `deliver` step of the `run`/`writeOutput` loop. -/
inductive QueueEvent where
  | push (m : Msg)
  | unPop (m : Msg)
  | pause
  | resume
  | shutdown
  | deliver
deriving Repr, DecidableEq

/-- One linearized step of the queue. -/
def queueStep (s : QueueState) : QueueEvent → QueueState
  | .push m => if s.stopped then s else { s with secondary := s.secondary ++ [m] }
  | .unPop m => if s.stopped then s else { s with primary := s.primary ++ [m] }
  | .pause => if s.stopped then s else { s with paused := true }
  | .resume => if s.stopped then s else { s with paused := false }
  | .shutdown => { s with stopped := true }
  | .deliver =>
    if s.stopped ∨ s.paused then s
    else
      match s.primary with
      | m :: rest => { s with primary := rest, delivered := s.delivered ++ [m] }
      | [] =>
        match s.secondary with
        | m :: rest => { s with secondary := rest, delivered := s.delivered ++ [m] }
        | [] => s

/-- Apply a list of events in order. -/
def applyEvents (s : QueueState) : List QueueEvent → QueueState
  | [] => s
  | e :: es => applyEvents (queueStep s e) es

/-- Run `n` deliver steps of the `run` loop. -/
def deliverN (s : QueueState) : Nat → QueueState
  | 0 => s
  | n + 1 => deliverN (queueStep s .deliver) n

/-- The sender's handling of one popped message (sender.go:23-45): with a
nil connection the message is requeued via `unPop` and the goroutine
exits; a failed write also requeues via `unPop` (then flags the
connection drop); a successful write leaves the queue untouched. -/
inductive SendAttempt where
  | noConnection
  | writeError
  | writeOk
deriving Repr, DecidableEq

/-- Effect of the sender loop on the queue for one popped message. -/
def senderHandleMsg (q : QueueState) (m : Msg) : SendAttempt → QueueState
  | .noConnection => queueStep q (.unPop m)
  | .writeError => queueStep q (.unPop m)
  | .writeOk => q

lemma applyEvents_pushes (qs : List Msg) :
    ∀ (p q d : List Msg) (pz : Bool),
      applyEvents ⟨p, q, pz, false, d⟩ (qs.map QueueEvent.push) =
        ⟨p, q ++ qs, pz, false, d⟩ := by
  induction qs with
  | nil => intro p q d pz; simp [applyEvents]
  | cons m rest ih =>
    intro p q d pz
    simp only [List.map_cons, applyEvents]
    rw [show queueStep ⟨p, q, pz, false, d⟩ (.push m) = ⟨p, q ++ [m], pz, false, d⟩ from rfl]
    rw [ih p (q ++ [m]) d pz]
    simp

lemma drain_secondary :
    ∀ (q d : List Msg),
      deliverN ⟨[], q, false, false, d⟩ q.length = ⟨[], [], false, false, d ++ q⟩ := by
  intro q
  induction q with
  | nil => intro d; simp [deliverN]
  | cons m rest ih =>
    intro d
    rw [List.length_cons, deliverN]
    rw [show queueStep ⟨[], m :: rest, false, false, d⟩ .deliver
          = ⟨[], rest, false, false, d ++ [m]⟩ from rfl]
    rw [ih (d ++ [m])]
    simp

lemma drain_all :
    ∀ (p q d : List Msg),
      deliverN ⟨p, q, false, false, d⟩ (p.length + q.length) =
        ⟨[], [], false, false, d ++ p ++ q⟩ := by
  intro p
  induction p with
  | nil =>
    intro q d
    simp only [List.length_nil, Nat.zero_add]
    rw [drain_secondary q d]
    simp
  | cons m rest ih =>
    intro q d
    have hl : (m :: rest).length + q.length = rest.length + q.length + 1 := by
      simp [Nat.succ_add]
    rw [hl, deliverN]
    rw [show queueStep ⟨m :: rest, q, false, false, d⟩ .deliver
          = ⟨rest, q, false, false, d ++ [m]⟩ from rfl]
    rw [ih q (d ++ [m])]
    simp

/-- C7: for every sequence of `push` calls consumed by a steady consumer
with no write failures (no requeues), the delivery order equals the push
order. -/
theorem queue_delivery_preserves_push_order (msgs : List Msg) :
    (deliverN (applyEvents newQueue (msgs.map QueueEvent.push)) msgs.length).delivered = msgs := by
  rw [show (newQueue : QueueState) = ⟨[], [], false, false, []⟩ from rfl,
    applyEvents_pushes msgs [] [] [] false]
  simp only [List.nil_append]
  rw [drain_secondary msgs []]
  simp

/-- C6: while the queue is paused a deliver step never yields a message
even when the queue is non-empty (the state, in particular the delivered
history, is unchanged); and after a resume the messages that were queued
at pause time drain in their original order before any message pushed
during the pause. -/
theorem queue_pause_blocks_and_resume_drains_in_order :
    (∀ s : QueueState, s.paused = true → queueStep s .deliver = s) ∧
    (∀ p q d qs : List Msg,
      (deliverN (queueStep (applyEvents ⟨p, q, true, false, d⟩ (qs.map QueueEvent.push)) .resume)
          (p.length + q.length + qs.length)).delivered = d ++ p ++ q ++ qs) := by
  constructor
  · intro s hp
    show (if s.stopped ∨ s.paused then s else _) = s
    rw [if_pos (Or.inr hp)]
  · intro p q d qs
    rw [applyEvents_pushes qs p q d true]
    rw [show queueStep ⟨p, q ++ qs, true, false, d⟩ .resume
          = ⟨p, q ++ qs, false, false, d⟩ from rfl]
    rw [show p.length + q.length + qs.length = p.length + (q ++ qs).length from by
      simp [Nat.add_assoc]]
    rw [drain_all p (q ++ qs) d]
    simp

/-- Witness for C6: a paused queue holding one primary message delivers
nothing on a deliver step. -/
theorem queue_pause_blocks_witness :
    queueStep ⟨[[0]], [], true, false, []⟩ QueueEvent.deliver = ⟨[[0]], [], true, false, []⟩ :=
  queue_pause_blocks_and_resume_drains_in_order.1 ⟨[[0]], [], true, false, []⟩ rfl

/-- C4: a message whose write attempt fails is requeued at the front of
the send queue, ahead of every message pushed after it, and is the next
message delivered once the queue is resumed: starting from any queue
state with no pending requeue, after the sender requeues the failed
message, any interim pushes land behind it and the next deliver step
emits exactly the failed message. -/
theorem queue_failed_write_requeued_front_next_delivered :
    (∀ (s : QueueState) (m : Msg) (qs : List Msg),
      s.stopped = false → s.primary = [] → s.paused = false →
      queueStep (applyEvents (senderHandleMsg s m .writeError)
          (qs.map QueueEvent.push)) .deliver =
        ⟨[], s.secondary ++ qs, false, false, s.delivered ++ [m]⟩) ∧
    (∀ (s : QueueState) (m : Msg) (qs : List Msg),
      s.stopped = false → s.primary = [] → s.paused = true →
      queueStep (queueStep (applyEvents (senderHandleMsg s m .writeError)
          (qs.map QueueEvent.push)) .resume) .deliver =
        ⟨[], s.secondary ++ qs, false, false, s.delivered ++ [m]⟩) := by
  constructor
  · intro s m qs hstop hprim hpause
    obtain ⟨p, q, pz, st, d⟩ := s
    simp only at hstop hprim hpause
    subst hstop
    subst hprim
    subst hpause
    rw [show senderHandleMsg ⟨[], q, false, false, d⟩ m .writeError
          = ⟨[m], q, false, false, d⟩ from rfl]
    rw [applyEvents_pushes qs [m] q d false]
    rfl
  · intro s m qs hstop hprim hpause
    obtain ⟨p, q, pz, st, d⟩ := s
    simp only at hstop hprim hpause
    subst hstop
    subst hprim
    subst hpause
    rw [show senderHandleMsg ⟨[], q, true, false, d⟩ m .writeError
          = ⟨[m], q, true, false, d⟩ from rfl]
    rw [applyEvents_pushes qs [m] q d true]
    rw [show queueStep ⟨[m], q ++ qs, true, false, d⟩ .resume
          = ⟨[m], q ++ qs, false, false, d⟩ from rfl]
    rfl

/-- Witness for C4: from a fresh queue, message `[1]` fails its write,
messages `[2]` and `[3]` are pushed afterwards, and `[1]` is still the
next message delivered. -/
theorem queue_failed_write_requeued_witness :
    queueStep (applyEvents (senderHandleMsg newQueue [1] .writeError)
        ([[2], [3]].map QueueEvent.push)) .deliver =
      ⟨[], [[2], [3]], false, false, [[1]]⟩ :=
  queue_failed_write_requeued_front_next_delivered.1 newQueue [1] [[2], [3]] rfl rfl rfl

/-! ## The public Websocket surface (websocket.go, current revision) -/

/-- The part of the `Websocket` struct that `Disconnect` touches: the
`connected` AtomicBool and whether `stopChannel` has been closed. -/
structure WsLifecycle where
  connected : Bool
  stopChannelClosed : Bool
deriving Repr, DecidableEq

/-- The lifecycle state produced by `New` (websocket.go, current revision
lines 38-65): `connected := abool.New()` (false) and a fresh, open
`stopChannel`. -/
def newWebsocket : WsLifecycle := ⟨false, false⟩

/-- The two supervisor-side lifecycle operations that run between `New`
and `Disconnect`. -/
inductive LifecycleOp where
  | setConnection
  | clearConnection
deriving Repr, DecidableEq

/-- Effect of `setConnection` and `clearConnection` (connection.go,
current revision lines 92-167) on the `Disconnect`-relevant state:
neither function writes `ws.connected` or touches `ws.stopChannel` in
this revision, so the state is unchanged. -/
def applyLifecycleOp (s : WsLifecycle) (_ : LifecycleOp) : WsLifecycle := s

/-- `Disconnect` (websocket.go, current revision lines 128-132): closes
`stopChannel` only when the `connected` flag is set.  `none` models the
run-time panic of closing an already-closed channel; the function has no
blocking operation and returns no error. -/
def Disconnect (s : WsLifecycle) : Option WsLifecycle :=
  if s.connected then
    if s.stopChannelClosed then none
    else some { s with stopChannelClosed := true }
  else some s

lemma foldl_applyLifecycleOp (ops : List LifecycleOp) :
    ∀ s : WsLifecycle, ops.foldl applyLifecycleOp s = s := by
  induction ops with
  | nil => intro s; rfl
  | cons o rest ih => intro s; exact ih s

/-- C5: `Disconnect` is idempotent and safe: called twice in a row, from
the fresh state or after any sequence of supervisor lifecycle
operations, both calls complete without a panic (and the function has no
error return and no blocking operation). -/
theorem disconnect_idempotent_safe :
    ∀ ops : List LifecycleOp,
      Disconnect (ops.foldl applyLifecycleOp newWebsocket) =
        some (ops.foldl applyLifecycleOp newWebsocket) ∧
      (Disconnect (ops.foldl applyLifecycleOp newWebsocket)).bind Disconnect =
        some (ops.foldl applyLifecycleOp newWebsocket) := by
  intro ops
  rw [foldl_applyLifecycleOp ops newWebsocket]
  exact ⟨rfl, rfl⟩

/-! ## Hook ordering in setConnection / clearConnection (connection.go,
current revision) -/

/-- The externally observable actions of `setConnection` and
`clearConnection`. -/
inductive LifeAction where
  | lockConnection
  | storeConnection
  | installCloseHandler
  | unlockConnection
  | invokeConnectedHook
  | startConsumer
  | startSender
  | stopConsumer
  | stopSender
  | closeTransport
  | clearConnectionField
  | invokeDisconnectedHook
deriving Repr, DecidableEq

/-- The actions of `setConnection` (connection.go, current revision lines
92-128), in source order: store the connection and install the
close-notification handler under the connection lock, invoke the
connected handler, then start the consumer and sender goroutines. -/
def setConnectionTrace : List LifeAction :=
  [.lockConnection, .storeConnection, .installCloseHandler, .unlockConnection,
    .invokeConnectedHook, .startConsumer, .startSender]

/-- The actions of `clearConnection` (connection.go, current revision
lines 131-167), in source order: stop the consumer and sender, close and
clear the connection under the lock, then invoke the disconnected
handler. -/
def clearConnectionTrace : List LifeAction :=
  [.stopConsumer, .stopSender, .lockConnection, .closeTransport, .clearConnectionField,
    .unlockConnection, .invokeDisconnectedHook]

/-- C9: on every connection establishment the connected hook is invoked
before either pump (consumer or sender) is started, and on every
teardown the disconnected hook is invoked only after both pumps have
been stopped and the transport has been closed. -/
theorem hooks_ordered_around_pumps :
    setConnectionTrace.indexOf .invokeConnectedHook <
        setConnectionTrace.indexOf .startConsumer ∧
    setConnectionTrace.indexOf .invokeConnectedHook <
        setConnectionTrace.indexOf .startSender ∧
    clearConnectionTrace.indexOf .stopConsumer <
        clearConnectionTrace.indexOf .invokeDisconnectedHook ∧
    clearConnectionTrace.indexOf .stopSender <
        clearConnectionTrace.indexOf .invokeDisconnectedHook ∧
    clearConnectionTrace.indexOf .closeTransport <
        clearConnectionTrace.indexOf .invokeDisconnectedHook := by
  decide

/-! ## Handler slots installed by New (websocket.go, current revision) -/

/-- The three callback slots of the `Websocket` struct.  Go function
values may be nil, modelled by `Option`. -/
structure EventHandlers where
  messageHandler : Option (Msg → Unit)
  connectedHandler : Option (Unit → Unit)
  disconnectedHandler : Option (Unit → Unit)

/-- The handler slots as initialized by `New` (websocket.go, current
revision lines 57-63): every slot holds a non-nil no-op function. -/
def newHandlers : EventHandlers :=
  { messageHandler := some fun _ => ()
    connectedHandler := some fun _ => ()
    disconnectedHandler := some fun _ => () }

/-- Result of invoking a handler slot: `nilDereference` models the Go
panic of calling a nil function value. -/
inductive HookCall where
  | ok
  | nilDereference
deriving Repr, DecidableEq

/-- Invoke the message handler slot, as the consumer goroutine does for
every inbound message. -/
def invokeMessageHandler (h : EventHandlers) (m : Msg) : HookCall :=
  match h.messageHandler with
  | none => .nilDereference
  | some f => let _ := f m; .ok

/-- Invoke the connected handler slot, as `setConnection` does. -/
def invokeConnectedHandler (h : EventHandlers) : HookCall :=
  match h.connectedHandler with
  | none => .nilDereference
  | some f => let _ := f (); .ok

/-- Invoke the disconnected handler slot, as `clearConnection` does. -/
def invokeDisconnectedHandler (h : EventHandlers) : HookCall :=
  match h.disconnectedHandler with
  | none => .nilDereference
  | some f => let _ := f (); .ok

/-- C10: a freshly constructed Websocket has non-nil no-op handlers in
all three callback slots, so a connection event or an inbound message
arriving before the host registers any handler invokes a harmless no-op
rather than dereferencing a nil function. -/
theorem new_installs_noop_handlers :
    (∀ m : Msg, invokeMessageHandler newHandlers m = .ok) ∧
    invokeConnectedHandler newHandlers = .ok ∧
    invokeDisconnectedHandler newHandlers = .ok ∧
    newHandlers.messageHandler.isSome = true ∧
    newHandlers.connectedHandler.isSome = true ∧
    newHandlers.disconnectedHandler.isSome = true :=
  ⟨fun _ => rfl, rfl, rfl, rfl, rfl, rfl⟩

end GoWs
